import Mathlib

/-!
Shallow embedding of `src/public/js/reading-plans.js` (the `ReadingPlans`
object) for verification of the specification claims.

Modelling conventions:
- A JavaScript `Date` is represented by its millisecond timestamp
  (`Date.prototype.getTime()`), an `Int`.
- `Math.floor(x / d)` on an integer-valued dividend and positive divisor is
  `Int.fdiv` (floored division); the JavaScript `%` operator is truncated
  remainder, `Int.tmod`.
- The external `StorageManager` key-value store is part of the explicit
  state: `storedStartDates` maps a plan-type key to an optional stored
  start timestamp, `storedCurrentPlan` is what `getCurrentPlan()` returns.
- The mutable field `this.currentPlanType` and the three plan tables are
  also part of the state; every operation returns its result together with
  the successor state.
- A JavaScript value that may be absent (`undefined`) is an `Option`;
  the `x || 3` defaulting idiom on numbers is `jsOr3` (absent and 0 are
  falsy), and `a || b` on two optional strings is `Option.orElse`.
-/

/-- Milliseconds per day, the constant `1000 * 60 * 60 * 24` of line 249. -/
def msPerDay : Int := 86400000

/-- A day entry of the NT90 plan table (`nt90Plan` array elements). -/
structure NTRecord where
  day : Int
  reading : String
  theme : String
  chapters : Option Int
  deriving Repr, DecidableEq

/-- A record of the flattened OT365 plan table (built by `flattenOT365Plan`). -/
structure OTRecord where
  day : Int
  reading : String
  theme : String
  month : String
  focus : String
  chapters : Int
  deriving Repr, DecidableEq

/-- A raw day entry inside one month group of the OT365 document. -/
structure OTDayEntry where
  day : Int
  reading : String
  theme : String
  chapters : Option Int
  deriving Repr, DecidableEq

/-- A raw month group of the OT365 document (`monthlyPlans` elements). -/
structure OTMonthPlan where
  month : String
  focus : String
  days : Option (List OTDayEntry)
  deriving Repr, DecidableEq

/-- The raw OT365 document passed to `flattenOT365Plan`. -/
structure OTDoc where
  monthlyPlans : Option (List OTMonthPlan)
  deriving Repr, DecidableEq

/-- A reading entry inside one Ethiopian month (`month.readings` elements);
`day` is the intra-month day field. -/
structure EthReading where
  day : Int
  reading : String
  theme : String
  feast : Option String
  chapters : Option Int
  deriving Repr, DecidableEq

/-- A month of the Ethiopian plan (`ethiopianPlan` array elements);
`readings` is absent when the raw month has no `readings` key. -/
structure EthMonth where
  name : String
  feast : Option String
  readings : Option (List EthReading)
  deriving Repr, DecidableEq

/-- The uniform reading assignment returned to callers; JavaScript object
keys that a branch does not set are `none`. -/
structure Assignment where
  day : Int
  title : String
  passages : List String
  theme : String
  month : Option String
  focus : Option String
  feast : Option String
  chapters : Int
  deriving Repr, DecidableEq

/-- The combined state: the `ReadingPlans` object fields plus the external
`StorageManager` store it reads and writes. -/
structure RPState where
  nt90Plan : List NTRecord
  ot365Plan : List OTRecord
  ethiopianPlan : List EthMonth
  currentPlanType : String
  storedCurrentPlan : String
  storedStartDates : String → Option Int

/-- The JavaScript numeric defaulting idiom `x || 3`: absent and 0 are falsy. -/
def jsOr3 : Option Int → Int
  | none => 3
  | some c => if c = 0 then 3 else c

/-- Lines 231-253, `calculateDayNumber(date, totalDays)`: reads the stored
start date under the current plan type; when absent, adopts `date` as the
start (a store write) and returns 1; otherwise floors the raw millisecond
difference into whole days and wraps with the double-mod expression
`((diffDays % totalDays) + totalDays) % totalDays + 1`. -/
def calculateDayNumber (s : RPState) (dateMs : Int) (totalDays : Int) : Int × RPState :=
  match s.storedStartDates s.currentPlanType with
  | none =>
      (1, { s with storedStartDates :=
              fun k => if k = s.currentPlanType then some dateMs else s.storedStartDates k })
  | some startMs =>
      let diffTime := dateMs - startMs
      let diffDays := Int.fdiv diffTime msPerDay
      (Int.tmod (Int.tmod diffDays totalDays + totalDays) totalDays + 1, s)

/-- Helper for specification statements: the pure wrap-around expression of
line 252 applied to an elapsed-day count. -/
def wrapDayNumber (diffDays : Int) (totalDays : Int) : Int :=
  Int.tmod (Int.tmod diffDays totalDays + totalDays) totalDays + 1

/-- Helper for specification statements: the elapsed-day count of lines
248-249, the floored quotient of the raw millisecond difference. -/
def elapsedDays (dateMs startMs : Int) : Int :=
  Int.fdiv (dateMs - startMs) msPerDay

/-- The calendar-day index of a timestamp (UTC): which whole day since the
epoch it falls in.  Two timestamps on the same calendar date share it. -/
def civilDay (ms : Int) : Int := Int.fdiv ms msPerDay

/-- The order relation of the sort comparator on line 109,
`(a, b) => a.day - b.day`: ascending by the `day` field. -/
def otDayLE : OTRecord → OTRecord → Prop := fun a b => a.day ≤ b.day

instance : DecidableRel otDayLE := fun a b => inferInstanceAs (Decidable (a.day ≤ b.day))

instance : IsTotal OTRecord otDayLE := ⟨fun a b => Int.le_total a.day b.day⟩

instance : IsTrans OTRecord otDayLE := ⟨fun _ _ _ h1 h2 => Int.le_trans h1 h2⟩

/-- Lines 89-106: the records pushed into `flatPlan` before sorting, one per
day entry of each month group, tagged with the parent month labels and with
`chapters` defaulted by `day.chapters || 3`. -/
def otRawRecords (data : OTDoc) : List OTRecord :=
  match data.monthlyPlans with
  | none => []
  | some months =>
      months.flatMap fun mp =>
        match mp.days with
        | none => []
        | some ds =>
            ds.map fun d =>
              { day := d.day, reading := d.reading, theme := d.theme,
                month := mp.month, focus := mp.focus, chapters := jsOr3 d.chapters }

/-- Lines 88-111, `flattenOT365Plan(data)`: flatten the month groups and sort
by the day field.  ECMAScript `Array.prototype.sort` is a stable sort, so a
stable structural sort models line 109 faithfully. -/
def flattenOT365Plan (data : OTDoc) : List OTRecord :=
  List.insertionSort otDayLE (otRawRecords data)

/-- Lines 196-199: readings of strictly earlier months counted by
`this.ethiopianPlan[i].readings?.length || 0`. -/
def ethDaysSoFar (plan : List EthMonth) (monthIndex : Nat) : Int :=
  (((plan.take monthIndex).map fun m => ((m.readings.getD []).length : Int))).sum

/-- Lines 190-213: the month loop of `getEthiopianReading`.  `plan` is the
whole `ethiopianPlan` array (used by the cumulative count through
`indexOf`, which on distinct array elements is the position `idx`), `rest`
the months still to scan.  Returns the month name, the merged feast
(`monthReading.feast || month.feast`) and the matched reading. -/
def ethFindAux (plan : List EthMonth) :
    List EthMonth → Nat → Int → Option (String × Option String × EthReading)
  | [], _, _ => none
  | m :: rest, idx, dayNumber =>
      match m.readings with
      | none => ethFindAux plan rest (idx + 1) dayNumber
      | some rs =>
          match rs.find? (fun r => ethDaysSoFar plan idx + r.day == dayNumber) with
          | some r => some (m.name, (r.feast.orElse fun _ => m.feast), r)
          | none => ethFindAux plan rest (idx + 1) dayNumber

/-- The whole-plan search of lines 190-213. -/
def ethFind (plan : List EthMonth) (dayNumber : Int) :
    Option (String × Option String × EthReading) :=
  ethFindAux plan plan 0 dayNumber

/-- Lines 256-276, `getFallbackReading(date, totalDays, testament)`:
recomputes the day number (a further `calculateDayNumber` call on the
current state) and returns the fixed per-testament record. -/
def getFallbackReading (s : RPState) (dateMs totalDays : Int) (testament : String) :
    Assignment × RPState :=
  let p := calculateDayNumber s dateMs totalDays
  let n := p.1
  if testament = "OT" then
    ({ day := n, title := s!"OT365 Day {n}", passages := ["Genesis 1-3"],
       theme := "Creation & Fall", month := none, focus := none, feast := none,
       chapters := 3 }, p.2)
  else
    ({ day := n, title := s!"NT90 Day {n}", passages := ["Matthew 1-4"],
       theme := "Birth & Early Ministry", month := none, focus := none, feast := none,
       chapters := 4 }, p.2)

/-- Lines 134-154, `getNT90Reading(date)`. -/
def getNT90Reading (s : RPState) (dateMs : Int) : Assignment × RPState :=
  let p := calculateDayNumber s dateMs 90
  let dayNumber := p.1
  let s1 := p.2
  if s1.nt90Plan.length = 0 then
    getFallbackReading s1 dateMs 90 "NT"
  else
    match s1.nt90Plan.find? (fun r => r.day == dayNumber) with
    | some r =>
        let d := r.day
        let t := r.theme
        ({ day := r.day, title := s!"Day {d}: {t}", passages := [r.reading],
           theme := r.theme, month := none, focus := none, feast := none,
           chapters := jsOr3 r.chapters }, s1)
    | none => getFallbackReading s1 dateMs 90 "NT"

/-- Lines 157-179, `getOT365Reading(date)`. -/
def getOT365Reading (s : RPState) (dateMs : Int) : Assignment × RPState :=
  let p := calculateDayNumber s dateMs 365
  let dayNumber := p.1
  let s1 := p.2
  if s1.ot365Plan.length = 0 then
    getFallbackReading s1 dateMs 365 "OT"
  else
    match s1.ot365Plan.find? (fun r => r.day == dayNumber) with
    | some r =>
        let d := r.day
        let t := r.theme
        ({ day := r.day, title := s!"Day {d}: {t}", passages := [r.reading],
           theme := r.theme, month := some r.month, focus := some r.focus, feast := none,
           chapters := jsOr3 (some r.chapters) }, s1)
    | none => getFallbackReading s1 dateMs 365 "OT"

/-- Lines 182-228, `getEthiopianReading(date)`. -/
def getEthiopianReading (s : RPState) (dateMs : Int) : Assignment × RPState :=
  let p := calculateDayNumber s dateMs 365
  let dayNumber := p.1
  let s1 := p.2
  if s1.ethiopianPlan.length = 0 then
    getFallbackReading s1 dateMs 365 "OT"
  else
    match ethFind s1.ethiopianPlan dayNumber with
    | some (nm, fe, r) =>
        let d := r.day
        let base := s!"{nm} Day {d}"
        let t := match fe with
          | some f => base ++ " - " ++ f
          | none => base
        ({ day := dayNumber, title := t, passages := [r.reading],
           theme := r.theme, month := some nm, focus := none, feast := fe,
           chapters := jsOr3 r.chapters }, s1)
    | none => getFallbackReading s1 dateMs 365 "OT"

/-- Lines 114-119: the update of `this.currentPlanType`.  A passed plan type
is adopted when truthy (the empty string is falsy in JavaScript); otherwise
the store supplies the current plan. -/
def setCurrentPlanType (s : RPState) (planType : Option String) : RPState :=
  match planType with
  | some p =>
      if p = "" then { s with currentPlanType := s.storedCurrentPlan }
      else { s with currentPlanType := p }
  | none => { s with currentPlanType := s.storedCurrentPlan }

/-- Lines 114-131, `getReadingForDate(date, planType)`: sets
`currentPlanType`, then dispatches; the `default` branch of the `switch`
falls through to the NT90 resolver. -/
def getReadingForDate (s : RPState) (dateMs : Int) (planType : Option String) :
    Assignment × RPState :=
  let s1 := setCurrentPlanType s planType
  if s1.currentPlanType = "nt90" then getNT90Reading s1 dateMs
  else if s1.currentPlanType = "ot365" then getOT365Reading s1 dateMs
  else if s1.currentPlanType = "ethiopian" then getEthiopianReading s1 dateMs
  else getNT90Reading s1 dateMs

/-- The static per-plan metadata record of lines 280-302.  The fractional
`avgChaptersPerDay` values 2.89 and 2.54 are exact decimals, represented
scaled by 100. -/
structure PlanInfo where
  name : String
  days : Int
  description : String
  totalChapters : Int
  avgChaptersPerDayTimes100 : Int
  deriving Repr, DecidableEq

def nt90Info : PlanInfo :=
  { name := "90-Day New Testament", days := 90,
    description := "Read through the New Testament in 90 days",
    totalChapters := 260, avgChaptersPerDayTimes100 := 289 }

def ot365Info : PlanInfo :=
  { name := "OT365 Challenge", days := 365,
    description := "Read entire Old Testament in one year",
    totalChapters := 929, avgChaptersPerDayTimes100 := 254 }

def ethiopianInfo : PlanInfo :=
  { name := "Ethiopian Calendar Plan", days := 365,
    description := "Bible reading following Ethiopian calendar with feast days",
    totalChapters := 929, avgChaptersPerDayTimes100 := 254 }

/-- Lines 279-305, `getPlanInfo(planType)`: keyed lookup with the
`info[planType] || info.nt90` default for any unknown key. -/
def getPlanInfo (planType : String) : PlanInfo :=
  if planType = "nt90" then nt90Info
  else if planType = "ot365" then ot365Info
  else if planType = "ethiopian" then ethiopianInfo
  else nt90Info

/-- The per-month day-entry counts of an OT365 document (used to state the
size of the flattened table). -/
def otMonthDayCounts (data : OTDoc) : List Nat :=
  match data.monthlyPlans with
  | none => []
  | some months => months.map fun mp => (mp.days.getD []).length

/-- A canonical Ethiopian reading with the given intra-month day field. -/
def canonEthReading (j : Nat) : EthReading :=
  { day := (j : Int), reading := "Reading", theme := "Theme", feast := none, chapters := none }

/-- A canonical Ethiopian month of `c` readings whose intra-month day fields
are 1, 2, ..., c (the shape of the real data files). -/
def canonEthMonth (nm : String) (c : Nat) : EthMonth :=
  { name := nm, feast := none, readings := some ((List.range' 1 c).map canonEthReading) }

/-- A three-month canonical Ethiopian plan with the given reading counts. -/
def canonEthPlan (c1 c2 c3 : Nat) : List EthMonth :=
  [canonEthMonth "Meskerem" c1, canonEthMonth "Tikimt" c2, canonEthMonth "Hidar" c3]

/-- A state for concrete evaluations: empty plan tables, current plan nt90,
and a start date of 2024-01-01T00:00:00Z stored under the key nt90. -/
def wState : RPState :=
  { nt90Plan := [], ot365Plan := [], ethiopianPlan := [],
    currentPlanType := "nt90", storedCurrentPlan := "nt90",
    storedStartDates := fun k => if k = "nt90" then some 1704067200000 else none }

/-- A state whose stored nt90 start date is 2024-01-01T23:00:00Z (a start
timestamp with a nonzero time-of-day component). -/
def wStateLate : RPState :=
  { nt90Plan := [], ot365Plan := [], ethiopianPlan := [],
    currentPlanType := "nt90", storedCurrentPlan := "nt90",
    storedStartDates := fun k => if k = "nt90" then some 1704150000000 else none }

/-- An Ethiopian plan whose first month has an empty readings array and
whose second month holds one reading with intra-month day 1. -/
def emptyFirstEthPlan : List EthMonth :=
  [ { name := "Meskerem", feast := none, readings := some [] },
    { name := "Tikimt", feast := none,
      readings := some [{ day := 1, reading := "Genesis 1", theme := "Creation",
                          feast := none, chapters := none }] } ]

/-- A state carrying `emptyFirstEthPlan`, current plan ethiopian, start date
2024-01-01T00:00:00Z stored under every key. -/
def emptyFirstEthState : RPState :=
  { nt90Plan := [], ot365Plan := [], ethiopianPlan := emptyFirstEthPlan,
    currentPlanType := "ethiopian", storedCurrentPlan := "ethiopian",
    storedStartDates := fun _ => some 1704067200000 }

/-- A two-month Ethiopian plan with one reading in each month, both with
intra-month day field 1. -/
def twoMonthEthPlan : List EthMonth :=
  [ { name := "Meskerem", feast := none,
      readings := some [{ day := 1, reading := "Genesis 1", theme := "Creation",
                          feast := none, chapters := none }] },
    { name := "Tikimt", feast := none,
      readings := some [{ day := 1, reading := "Exodus 1", theme := "Deliverance",
                          feast := none, chapters := none }] } ]

/-- A state carrying `twoMonthEthPlan` whose stored start makes the probe
date fall on cycle day 2. -/
def twoMonthEthState : RPState :=
  { nt90Plan := [], ot365Plan := [], ethiopianPlan := twoMonthEthPlan,
    currentPlanType := "ethiopian", storedCurrentPlan := "ethiopian",
    storedStartDates := fun _ => some 1704067200000 }

/-- A small OT365 raw document: two months, non-contiguous day fields given
out of positional order, one absent chapters field. -/
def wOTDoc : OTDoc :=
  { monthlyPlans := some
      [ { month := "January", focus := "Beginnings",
          days := some [ { day := 3, reading := "Genesis 5-8", theme := "Flood", chapters := none },
                         { day := 1, reading := "Genesis 1-4", theme := "Creation", chapters := some 4 } ] },
        { month := "February", focus := "Patriarchs",
          days := some [ { day := 2, reading := "Genesis 9-11", theme := "Nations", chapters := some 3 } ] } ] }

theorem neg_tmod (a b : Int) : Int.tmod (-a) b = -(Int.tmod a b) := by
  rw [Int.tmod_def, Int.tmod_def, Int.neg_tdiv]
  ring

theorem tmod_lower_bound (a : Int) {b : Int} (hb : 0 < b) : -b < Int.tmod a b := by
  rcases le_or_lt 0 a with ha | ha
  · have := Int.tmod_nonneg b ha
    omega
  · have h1 : Int.tmod a b = -(Int.tmod (-a) b) := by
      rw [neg_tmod, Int.neg_neg]
    have h2 : Int.tmod (-a) b < b := Int.tmod_lt_of_pos _ hb
    omega

theorem tmod_emod (a b : Int) : Int.tmod a b % b = a % b := by
  rw [Int.tmod_def, Int.sub_emod, Int.mul_emod_right]
  simp [Int.sub_emod, Int.emod_emod_of_dvd]

/-- The double-mod expression of line 252 equals the mathematical
(Euclidean) remainder plus one, for a positive cycle length. -/
theorem wrapDayNumber_eq_emod (d L : Int) (hL : 0 < L) :
    wrapDayNumber d L = d % L + 1 := by
  unfold wrapDayNumber
  have hlow : -L < Int.tmod d L := tmod_lower_bound d hL
  have hhigh : Int.tmod d L < L := Int.tmod_lt_of_pos d hL
  have hnn : 0 ≤ Int.tmod d L + L := by omega
  rw [Int.tmod_eq_emod hnn (le_of_lt hL), Int.add_emod_self, tmod_emod]

theorem wrapDayNumber_bounds (d L : Int) (hL : 0 < L) :
    1 ≤ wrapDayNumber d L ∧ wrapDayNumber d L ≤ L := by
  rw [wrapDayNumber_eq_emod d L hL]
  have h1 : 0 ≤ d % L := Int.emod_nonneg d (by omega)
  have h2 : d % L < L := Int.emod_lt_of_pos d hL
  omega

theorem calculateDayNumber_eq_wrap (s : RPState) (dateMs totalDays startMs : Int)
    (h : s.storedStartDates s.currentPlanType = some startMs) :
    calculateDayNumber s dateMs totalDays =
      (wrapDayNumber (elapsedDays dateMs startMs) totalDays, s) := by
  unfold calculateDayNumber wrapDayNumber elapsedDays
  rw [h]

/-- C1: for every cycle length L > 0 and every pair of timestamps (hence
every integer number of elapsed days, positive, zero or negative), the day
number computed by calculateDayNumber lies in [1, L]; and when today equals
the stored start date (zero elapsed days) it is 1. -/
theorem claim_C1 (s : RPState) (dateMs L : Int) (hL : 0 < L) :
    (1 ≤ (calculateDayNumber s dateMs L).1 ∧ (calculateDayNumber s dateMs L).1 ≤ L) ∧
    (∀ startMs, s.storedStartDates s.currentPlanType = some startMs → dateMs = startMs →
      (calculateDayNumber s dateMs L).1 = 1) := by
  constructor
  · match hst : s.storedStartDates s.currentPlanType with
    | none =>
        simp only [calculateDayNumber, hst]
        omega
    | some startMs =>
        rw [calculateDayNumber_eq_wrap s dateMs L startMs hst]
        exact wrapDayNumber_bounds _ L hL
  · intro startMs hst heq
    rw [calculateDayNumber_eq_wrap s dateMs L startMs hst]
    subst heq
    unfold elapsedDays
    rw [Int.sub_self, Int.zero_fdiv, wrapDayNumber_eq_emod 0 L hL, Int.zero_emod]
    simp

theorem claim_C1_witness :
    (0 : Int) < 90 ∧
    ((1 ≤ (calculateDayNumber wState 1704067200000 90).1 ∧
      (calculateDayNumber wState 1704067200000 90).1 ≤ 90) ∧
     (∀ startMs, wState.storedStartDates wState.currentPlanType = some startMs →
        (1704067200000 : Int) = startMs →
        (calculateDayNumber wState 1704067200000 90).1 = 1)) :=
  ⟨by decide, claim_C1 wState 1704067200000 90 (by decide)⟩

/-- C2 counterexample: with cycle length 90 and stored start date
2024-01-01T00:00:00Z, today = 2024-04-01T00:00:00Z is 91 elapsed days, and
calculateDayNumber returns 2, not the 1 the claim asserts. -/
theorem claim_C2_cex :
    elapsedDays 1711929600000 1704067200000 = 91 ∧
    (calculateDayNumber wState 1711929600000 90).1 = 2 := by decide

/-- C2 amended: with cycle length 90 and stored start date 2024-01-01,
today = 2024-01-01 gives day 1; today = 2024-04-01 (91 days later) gives
day 2; today = 2024-03-31 (90 days later) wraps to day 1; and
today = 2023-12-31 (1 day before the start) gives day 90. -/
theorem claim_C2 :
    (calculateDayNumber wState 1704067200000 90).1 = 1 ∧
    (calculateDayNumber wState 1711929600000 90).1 = 2 ∧
    (calculateDayNumber wState 1711843200000 90).1 = 1 ∧
    (calculateDayNumber wState 1703980800000 90).1 = 90 := by decide

/-- C3 counterexample: the stored start is 2024-01-01T23:00:00Z; the two
todays 2024-01-02T00:00:00Z and 2024-01-02T23:30:00Z fall on the same
calendar date, yet calculateDayNumber returns 1 for the first and 2 for the
second, so time-of-day is not truncated before subtracting. -/
theorem claim_C3_cex :
    civilDay 1704153600000 = civilDay 1704238200000 ∧
    (calculateDayNumber wStateLate 1704153600000 90).1 = 1 ∧
    (calculateDayNumber wStateLate 1704238200000 90).1 = 2 := by decide

/-- C3 amended: calculateDayNumber floors the raw millisecond difference
between today and the stored start date with no truncation of either
time-of-day; consequently the computed day number is a function of that raw
difference alone (two calls whose raw differences agree give equal day
numbers), and same-calendar-date todays with different times of day can
yield different day numbers. -/
theorem claim_C3 (s1 s2 : RPState) (d1 d2 t1 t2 L : Int)
    (h1 : s1.storedStartDates s1.currentPlanType = some t1)
    (h2 : s2.storedStartDates s2.currentPlanType = some t2)
    (hdiff : d1 - t1 = d2 - t2) :
    (calculateDayNumber s1 d1 L).1 = (calculateDayNumber s2 d2 L).1 := by
  rw [calculateDayNumber_eq_wrap s1 d1 L t1 h1, calculateDayNumber_eq_wrap s2 d2 L t2 h2]
  unfold elapsedDays
  rw [hdiff]

theorem claim_C3_witness :
    wState.storedStartDates wState.currentPlanType = some 1704067200000 ∧
    wStateLate.storedStartDates wStateLate.currentPlanType = some 1704150000000 ∧
    (1704153600000 : Int) - 1704067200000 = 1704236400000 - 1704150000000 ∧
    (calculateDayNumber wState 1704153600000 90).1 =
      (calculateDayNumber wStateLate 1704236400000 90).1 :=
  ⟨by decide, by decide, by decide,
    claim_C3 wState wStateLate 1704153600000 1704236400000 1704067200000 1704150000000 90
      (by decide) (by decide) (by decide)⟩

/-- C9: the day-number computation is cyclical: with a stored start date and
cycle length L > 0, shifting today forward by exactly L days leaves the
computed day number unchanged. -/
theorem claim_C9 (s : RPState) (dateMs L startMs : Int) (hL : 0 < L)
    (h : s.storedStartDates s.currentPlanType = some startMs) :
    (calculateDayNumber s (dateMs + L * msPerDay) L).1 =
      (calculateDayNumber s dateMs L).1 := by
  rw [calculateDayNumber_eq_wrap s _ L startMs h, calculateDayNumber_eq_wrap s dateMs L startMs h]
  have hm : (0 : Int) < msPerDay := by decide
  have he : elapsedDays (dateMs + L * msPerDay) startMs = elapsedDays dateMs startMs + L := by
    unfold elapsedDays
    rw [Int.fdiv_eq_ediv _ (le_of_lt hm), Int.fdiv_eq_ediv _ (le_of_lt hm)]
    have harr : dateMs + L * msPerDay - startMs = (dateMs - startMs) + L * msPerDay := by ring
    rw [harr, Int.add_mul_ediv_right _ _ (by omega : msPerDay ≠ 0)]
  rw [he, wrapDayNumber_eq_emod _ L hL, wrapDayNumber_eq_emod _ L hL, Int.add_emod_self]

theorem claim_C9_witness :
    (0 : Int) < 90 ∧
    wState.storedStartDates wState.currentPlanType = some 1704067200000 ∧
    (calculateDayNumber wState (1704326400000 + 90 * msPerDay) 90).1 =
      (calculateDayNumber wState 1704326400000 90).1 :=
  ⟨by decide, by decide,
    claim_C9 wState 1704326400000 90 1704067200000 (by decide) (by decide)⟩

theorem calculateDayNumber_snd_of_stored (s : RPState) (d L t : Int)
    (h : s.storedStartDates s.currentPlanType = some t) :
    (calculateDayNumber s d L).2 = s := by
  simp [calculateDayNumber, h]

theorem calculateDayNumber_snd_of_none (s : RPState) (d L : Int)
    (h : s.storedStartDates s.currentPlanType = none) :
    (calculateDayNumber s d L).2 =
      { s with storedStartDates :=
          fun k => if k = s.currentPlanType then some d else s.storedStartDates k } := by
  simp [calculateDayNumber, h]

theorem calculateDayNumber_snd_frame (s : RPState) (d L : Int) :
    (calculateDayNumber s d L).2.nt90Plan = s.nt90Plan ∧
    (calculateDayNumber s d L).2.ot365Plan = s.ot365Plan ∧
    (calculateDayNumber s d L).2.ethiopianPlan = s.ethiopianPlan ∧
    (calculateDayNumber s d L).2.currentPlanType = s.currentPlanType ∧
    (calculateDayNumber s d L).2.storedCurrentPlan = s.storedCurrentPlan := by
  cases h : s.storedStartDates s.currentPlanType <;> simp [calculateDayNumber, h]

theorem calculateDayNumber_stored_after (s : RPState) (d L : Int) :
    ∃ t, (calculateDayNumber s d L).2.storedStartDates
        ((calculateDayNumber s d L).2.currentPlanType) = some t := by
  cases h : s.storedStartDates s.currentPlanType with
  | none => exact ⟨d, by simp [calculateDayNumber, h]⟩
  | some t => exact ⟨t, by simp [calculateDayNumber, h]⟩

theorem calculateDayNumber_snd_idem (s : RPState) (d L d2 L2 : Int) :
    (calculateDayNumber ((calculateDayNumber s d L).2) d2 L2).2 =
      (calculateDayNumber s d L).2 := by
  obtain ⟨t, ht⟩ := calculateDayNumber_stored_after s d L
  exact calculateDayNumber_snd_of_stored _ d2 L2 t ht

theorem calculateDayNumber_fst_idem (s : RPState) (d L : Int) (hL : 0 < L) :
    (calculateDayNumber ((calculateDayNumber s d L).2) d L).1 =
      (calculateDayNumber s d L).1 := by
  cases h : s.storedStartDates s.currentPlanType with
  | some t =>
      rw [calculateDayNumber_snd_of_stored s d L t h]
  | none =>
      have h2 : (calculateDayNumber s d L).2.storedStartDates
          ((calculateDayNumber s d L).2.currentPlanType) = some d := by
        simp [calculateDayNumber, h]
      rw [calculateDayNumber_eq_wrap _ d L d h2]
      simp [elapsedDays, Int.sub_self, Int.zero_fdiv, wrapDayNumber_eq_emod 0 L hL,
        Int.zero_emod, calculateDayNumber, h]

theorem getFallbackReading_snd (s : RPState) (d td : Int) (t : String) :
    (getFallbackReading s d td t).2 = (calculateDayNumber s d td).2 := by
  unfold getFallbackReading
  by_cases h : t = "OT" <;> simp [h]

theorem getNT90Reading_snd (s : RPState) (d : Int) :
    (getNT90Reading s d).2 = (calculateDayNumber s d 90).2 := by
  unfold getNT90Reading
  dsimp only
  split
  · rw [getFallbackReading_snd, calculateDayNumber_snd_idem]
  · split
    · rfl
    · rw [getFallbackReading_snd, calculateDayNumber_snd_idem]

theorem getOT365Reading_snd (s : RPState) (d : Int) :
    (getOT365Reading s d).2 = (calculateDayNumber s d 365).2 := by
  unfold getOT365Reading
  dsimp only
  split
  · rw [getFallbackReading_snd, calculateDayNumber_snd_idem]
  · split
    · rfl
    · rw [getFallbackReading_snd, calculateDayNumber_snd_idem]

theorem getEthiopianReading_snd (s : RPState) (d : Int) :
    (getEthiopianReading s d).2 = (calculateDayNumber s d 365).2 := by
  unfold getEthiopianReading
  dsimp only
  split
  · rw [getFallbackReading_snd, calculateDayNumber_snd_idem]
  · split
    · rfl
    · rw [getFallbackReading_snd, calculateDayNumber_snd_idem]

theorem getReadingForDate_snd (s : RPState) (d : Int) (pt : Option String) :
    (getReadingForDate s d pt).2 = (calculateDayNumber (setCurrentPlanType s pt) d 90).2 ∨
    (getReadingForDate s d pt).2 = (calculateDayNumber (setCurrentPlanType s pt) d 365).2 := by
  unfold getReadingForDate
  dsimp only
  split
  · exact Or.inl (getNT90Reading_snd _ d)
  · split
    · exact Or.inr (getOT365Reading_snd _ d)
    · split
      · exact Or.inr (getEthiopianReading_snd _ d)
      · exact Or.inl (getNT90Reading_snd _ d)

theorem setCurrentPlanType_frame (s : RPState) (pt : Option String) :
    (setCurrentPlanType s pt).nt90Plan = s.nt90Plan ∧
    (setCurrentPlanType s pt).ot365Plan = s.ot365Plan ∧
    (setCurrentPlanType s pt).ethiopianPlan = s.ethiopianPlan ∧
    (setCurrentPlanType s pt).storedCurrentPlan = s.storedCurrentPlan ∧
    (setCurrentPlanType s pt).storedStartDates = s.storedStartDates := by
  cases pt with
  | none => simp [setCurrentPlanType]
  | some p => by_cases h : p = "" <;> simp [setCurrentPlanType, h]

/-- C5 counterexample: calling getReadingForDate with the plan-type argument
ot365 on a state whose current-plan-type field is nt90 changes that field
to ot365 (line 116), so state other than the external start-date write is
mutated. -/
theorem claim_C5_cex :
    wState.currentPlanType = "nt90" ∧
    (getReadingForDate wState 1704067200000 (some "ot365")).2.currentPlanType = "ot365" := by
  decide

/-- C5 amended: getReadingForDate performs no mutation other than possibly
the external start-date write adopting today and the update of the
current-plan-type field on lines 115-119; the three plan tables and the
stored current plan are unchanged, the current-plan-type field becomes the
value setCurrentPlanType prescribes, and the start-date store is unchanged
unless no start was stored under the new current plan type, in which case
exactly that key is set to today. -/
theorem claim_C5 (s : RPState) (dateMs : Int) (pt : Option String) :
    (getReadingForDate s dateMs pt).2.nt90Plan = s.nt90Plan ∧
    (getReadingForDate s dateMs pt).2.ot365Plan = s.ot365Plan ∧
    (getReadingForDate s dateMs pt).2.ethiopianPlan = s.ethiopianPlan ∧
    (getReadingForDate s dateMs pt).2.storedCurrentPlan = s.storedCurrentPlan ∧
    (getReadingForDate s dateMs pt).2.currentPlanType =
      (setCurrentPlanType s pt).currentPlanType ∧
    ((getReadingForDate s dateMs pt).2.storedStartDates = s.storedStartDates ∨
      (s.storedStartDates (setCurrentPlanType s pt).currentPlanType = none ∧
       (getReadingForDate s dateMs pt).2.storedStartDates =
         fun k => if k = (setCurrentPlanType s pt).currentPlanType then some dateMs
                  else s.storedStartDates k)) := by
  obtain ⟨f1, f2, f3, f4, f5⟩ := setCurrentPlanType_frame s pt
  obtain hA | hA := getReadingForDate_snd s dateMs pt <;>
  · rw [hA]
    cases h : (setCurrentPlanType s pt).storedStartDates
        (setCurrentPlanType s pt).currentPlanType with
    | some t =>
        rw [calculateDayNumber_snd_of_stored _ _ _ t h]
        exact ⟨f1, f2, f3, f4, rfl, Or.inl f5⟩
    | none =>
        rw [calculateDayNumber_snd_of_none _ _ _ h]
        refine ⟨f1, f2, f3, f4, rfl, Or.inr ⟨by rw [← f5]; exact h, ?_⟩⟩
        rw [f5]

/-- C4 counterexample: for the unknown plan type "lectionary", getPlanInfo
returns the nt90 metadata record and getReadingForDate returns a well-formed
NT90 fallback assignment; neither operation rejects or throws. -/
theorem claim_C4_cex :
    getPlanInfo "lectionary" = nt90Info ∧
    (getReadingForDate wState 1704067200000 (some "lectionary")).1.title = "NT90 Day 1" := by
  decide

/-- C4 amended: for every nonempty plan-type argument outside the enumerated
set, the public operations silently default to the behaviour of the nt90 plan
instead of failing fast: getPlanInfo returns the nt90 record and
getReadingForDate falls through the switch default to the NT90 resolver
(with the current-plan-type field set to the unknown value). -/
theorem claim_C4 (pt : String) (s : RPState) (d : Int)
    (h1 : pt ≠ "nt90") (h2 : pt ≠ "ot365") (h3 : pt ≠ "ethiopian") (h0 : pt ≠ "") :
    getPlanInfo pt = nt90Info ∧
    getReadingForDate s d (some pt) = getNT90Reading { s with currentPlanType := pt } d := by
  constructor
  · simp [getPlanInfo, h1, h2, h3]
  · simp [getReadingForDate, setCurrentPlanType, h0, h1, h2, h3]

theorem claim_C4_witness :
    ("lectionary" ≠ "nt90" ∧ "lectionary" ≠ "ot365" ∧
     "lectionary" ≠ "ethiopian" ∧ "lectionary" ≠ "") ∧
    getPlanInfo "lectionary" = nt90Info ∧
    getReadingForDate wState 1704067200000 (some "lectionary") =
      getNT90Reading { wState with currentPlanType := "lectionary" } 1704067200000 :=
  ⟨⟨by decide, by decide, by decide, by decide⟩,
    claim_C4 "lectionary" wState 1704067200000 (by decide) (by decide) (by decide) (by decide)⟩

theorem toString_id_str (a : String) : (toString a : String) = a := rfl

theorem getFallbackReading_fst_NT (s : RPState) (d td : Int) :
    (getFallbackReading s d td "NT").1 =
      { day := (calculateDayNumber s d td).1,
        title := "NT90 Day " ++ toString (calculateDayNumber s d td).1,
        passages := ["Matthew 1-4"], theme := "Birth & Early Ministry",
        month := none, focus := none, feast := none, chapters := 4 } := by
  unfold getFallbackReading
  simp [toString_id_str]

theorem getFallbackReading_fst_OT (s : RPState) (d td : Int) :
    (getFallbackReading s d td "OT").1 =
      { day := (calculateDayNumber s d td).1,
        title := "OT365 Day " ++ toString (calculateDayNumber s d td).1,
        passages := ["Genesis 1-3"], theme := "Creation & Fall",
        month := none, focus := none, feast := none, chapters := 3 } := by
  unfold getFallbackReading
  simp [toString_id_str]

theorem getNT90Reading_empty_fst (s : RPState) (d : Int) (h : s.nt90Plan = []) :
    (getNT90Reading s d).1 =
      { day := (calculateDayNumber s d 90).1,
        title := "NT90 Day " ++ toString (calculateDayNumber s d 90).1,
        passages := ["Matthew 1-4"], theme := "Birth & Early Ministry",
        month := none, focus := none, feast := none, chapters := 4 } := by
  have hf : (calculateDayNumber s d 90).2.nt90Plan = [] := by
    rw [(calculateDayNumber_snd_frame s d 90).1, h]
  unfold getNT90Reading
  dsimp only
  rw [if_pos (by simp [hf]), getFallbackReading_fst_NT,
    calculateDayNumber_fst_idem s d 90 (by norm_num)]

theorem getOT365Reading_empty_fst (s : RPState) (d : Int) (h : s.ot365Plan = []) :
    (getOT365Reading s d).1 =
      { day := (calculateDayNumber s d 365).1,
        title := "OT365 Day " ++ toString (calculateDayNumber s d 365).1,
        passages := ["Genesis 1-3"], theme := "Creation & Fall",
        month := none, focus := none, feast := none, chapters := 3 } := by
  have hf : (calculateDayNumber s d 365).2.ot365Plan = [] := by
    rw [(calculateDayNumber_snd_frame s d 365).2.1, h]
  unfold getOT365Reading
  dsimp only
  rw [if_pos (by simp [hf]), getFallbackReading_fst_OT,
    calculateDayNumber_fst_idem s d 365 (by norm_num)]

theorem getEthiopianReading_empty_fst (s : RPState) (d : Int) (h : s.ethiopianPlan = []) :
    (getEthiopianReading s d).1 =
      { day := (calculateDayNumber s d 365).1,
        title := "OT365 Day " ++ toString (calculateDayNumber s d 365).1,
        passages := ["Genesis 1-3"], theme := "Creation & Fall",
        month := none, focus := none, feast := none, chapters := 3 } := by
  have hf : (calculateDayNumber s d 365).2.ethiopianPlan = [] := by
    rw [(calculateDayNumber_snd_frame s d 365).2.2.1, h]
  unfold getEthiopianReading
  dsimp only
  rw [if_pos (by simp [hf]), getFallbackReading_fst_OT,
    calculateDayNumber_fst_idem s d 365 (by norm_num)]

/-- C8: with all plan tables never ingested (empty), getReadingForDate
raises no exception (it is a total function) and returns exactly the fixed
per-testament fallback assignment, with the day field computed by the
section 4.2 day-number calculation for the requested plan type. -/
theorem claim_C8 (s : RPState) (d : Int)
    (h1 : s.nt90Plan = []) (h2 : s.ot365Plan = []) (h3 : s.ethiopianPlan = []) :
    ((getReadingForDate s d (some "nt90")).1 =
      { day := (calculateDayNumber { s with currentPlanType := "nt90" } d 90).1,
        title := "NT90 Day " ++
          toString (calculateDayNumber { s with currentPlanType := "nt90" } d 90).1,
        passages := ["Matthew 1-4"], theme := "Birth & Early Ministry",
        month := none, focus := none, feast := none, chapters := 4 }) ∧
    ((getReadingForDate s d (some "ot365")).1 =
      { day := (calculateDayNumber { s with currentPlanType := "ot365" } d 365).1,
        title := "OT365 Day " ++
          toString (calculateDayNumber { s with currentPlanType := "ot365" } d 365).1,
        passages := ["Genesis 1-3"], theme := "Creation & Fall",
        month := none, focus := none, feast := none, chapters := 3 }) ∧
    ((getReadingForDate s d (some "ethiopian")).1 =
      { day := (calculateDayNumber { s with currentPlanType := "ethiopian" } d 365).1,
        title := "OT365 Day " ++
          toString (calculateDayNumber { s with currentPlanType := "ethiopian" } d 365).1,
        passages := ["Genesis 1-3"], theme := "Creation & Fall",
        month := none, focus := none, feast := none, chapters := 3 }) := by
  refine ⟨?_, ?_, ?_⟩
  · have hd : getReadingForDate s d (some "nt90") =
        getNT90Reading { s with currentPlanType := "nt90" } d := by
      simp [getReadingForDate, setCurrentPlanType]
    rw [hd, getNT90Reading_empty_fst { s with currentPlanType := "nt90" } d h1]
  · have hd : getReadingForDate s d (some "ot365") =
        getOT365Reading { s with currentPlanType := "ot365" } d := by
      simp [getReadingForDate, setCurrentPlanType]
    rw [hd, getOT365Reading_empty_fst { s with currentPlanType := "ot365" } d h2]
  · have hd : getReadingForDate s d (some "ethiopian") =
        getEthiopianReading { s with currentPlanType := "ethiopian" } d := by
      simp [getReadingForDate, setCurrentPlanType]
    rw [hd, getEthiopianReading_empty_fst { s with currentPlanType := "ethiopian" } d h3]

theorem claim_C8_witness :
    (wState.nt90Plan = [] ∧ wState.ot365Plan = [] ∧ wState.ethiopianPlan = []) ∧
    (getReadingForDate wState 1704067200000 (some "nt90")).1 =
      { day := (calculateDayNumber { wState with currentPlanType := "nt90" } 1704067200000 90).1,
        title := "NT90 Day " ++ toString
          (calculateDayNumber { wState with currentPlanType := "nt90" } 1704067200000 90).1,
        passages := ["Matthew 1-4"], theme := "Birth & Early Ministry",
        month := none, focus := none, feast := none, chapters := 4 } :=
  ⟨⟨rfl, rfl, rfl⟩, (claim_C8 wState 1704067200000 rfl rfl rfl).1⟩

theorem ethFindAux_cons_none (plan : List EthMonth) (m : EthMonth) (rest : List EthMonth)
    (idx : Nat) (n : Int) (hr : m.readings = none) :
    ethFindAux plan (m :: rest) idx n = ethFindAux plan rest (idx + 1) n := by
  simp only [ethFindAux, hr]

theorem ethFindAux_cons_skip (plan : List EthMonth) (m : EthMonth) (rest : List EthMonth)
    (idx : Nat) (n : Int) (rs : List EthReading) (hr : m.readings = some rs)
    (hf : rs.find? (fun r => ethDaysSoFar plan idx + r.day == n) = none) :
    ethFindAux plan (m :: rest) idx n = ethFindAux plan rest (idx + 1) n := by
  simp only [ethFindAux, hr, hf]

theorem ethFindAux_cons_found (plan : List EthMonth) (m : EthMonth) (rest : List EthMonth)
    (idx : Nat) (n : Int) (rs : List EthReading) (r : EthReading) (hr : m.readings = some rs)
    (hf : rs.find? (fun r => ethDaysSoFar plan idx + r.day == n) = some r) :
    ethFindAux plan (m :: rest) idx n =
      some (m.name, (r.feast.orElse fun _ => m.feast), r) := by
  simp only [ethFindAux, hr, hf]

/-- Any result of the month-scanning loop comes from some month of the
scanned list, its name is the name of that month, and the matched reading
satisfies the cumulative-offset equation of lines 194-201. -/
theorem ethFindAux_spec (plan : List EthMonth) (rest : List EthMonth) :
    ∀ (idx : Nat) (n : Int) (nm : String) (fe : Option String) (r : EthReading),
      ethFindAux plan rest idx n = some (nm, fe, r) →
      ∃ j m rs, rest[j]? = some m ∧ m.readings = some rs ∧ r ∈ rs ∧ nm = m.name ∧
        ethDaysSoFar plan (idx + j) + r.day = n := by
  induction rest with
  | nil =>
      intro idx n nm fe r h
      simp [ethFindAux] at h
  | cons m0 tl ih =>
      intro idx n nm fe r h
      cases hr : m0.readings with
      | none =>
          rw [ethFindAux_cons_none plan m0 tl idx n hr] at h
          obtain ⟨j, m, rs, h1, h2, h3, h4, h5⟩ := ih (idx + 1) n nm fe r h
          refine ⟨j + 1, m, rs, by simpa using h1, h2, h3, h4, ?_⟩
          rw [show idx + (j + 1) = idx + 1 + j by omega]
          exact h5
      | some rs0 =>
          cases hf : rs0.find? (fun x => ethDaysSoFar plan idx + x.day == n) with
          | none =>
              rw [ethFindAux_cons_skip plan m0 tl idx n rs0 hr hf] at h
              obtain ⟨j, m, rs, h1, h2, h3, h4, h5⟩ := ih (idx + 1) n nm fe r h
              refine ⟨j + 1, m, rs, by simpa using h1, h2, h3, h4, ?_⟩
              rw [show idx + (j + 1) = idx + 1 + j by omega]
              exact h5
          | some r0 =>
              rw [ethFindAux_cons_found plan m0 tl idx n rs0 r0 hr hf] at h
              simp only [Option.some.injEq, Prod.mk.injEq] at h
              obtain ⟨hnm, hfe, hrr⟩ := h
              subst hrr
              have hmem : r0 ∈ rs0 := List.mem_of_find?_eq_some hf
              have hp := List.find?_some hf
              refine ⟨0, m0, rs0, by simp, hr, hmem, hnm.symm, ?_⟩
              rw [Nat.add_zero]
              exact beq_iff_eq.mp hp

theorem canonEthMonth_readings (nm : String) (c : Nat) :
    (canonEthMonth nm c).readings = some ((List.range' 1 c).map canonEthReading) := rfl

theorem canonEthPlan_daysSoFar0 (c1 c2 c3 : Nat) :
    ethDaysSoFar (canonEthPlan c1 c2 c3) 0 = 0 := by
  simp [ethDaysSoFar]

theorem canonEthPlan_daysSoFar1 (c1 c2 c3 : Nat) :
    ethDaysSoFar (canonEthPlan c1 c2 c3) 1 = (c1 : Int) := by
  simp [ethDaysSoFar, canonEthPlan, canonEthMonth]

theorem canonEthPlan_daysSoFar2 (c1 c2 c3 : Nat) :
    ethDaysSoFar (canonEthPlan c1 c2 c3) 2 = (c1 : Int) + c2 := by
  simp [ethDaysSoFar, canonEthPlan, canonEthMonth]

theorem canon_find_none (plan : List EthMonth) (idx : Nat) (c : Nat) (n : Int)
    (h : ∀ j : Nat, 1 ≤ j → j ≤ c → ethDaysSoFar plan idx + (j : Int) ≠ n) :
    ((List.range' 1 c).map canonEthReading).find?
      (fun r => ethDaysSoFar plan idx + r.day == n) = none := by
  rw [List.find?_eq_none]
  intro x hx
  obtain ⟨j, hj, rfl⟩ := List.mem_map.mp hx
  have hj2 := List.mem_range'_1.mp hj
  simp only [canonEthReading, beq_iff_eq]
  exact h j hj2.1 (by omega)

theorem ethFind_canon (c1 c2 k : Nat) :
    ethFind (canonEthPlan c1 c2 (k + 2)) ((c1 : Int) + c2 + 2) =
      some ("Hidar", none, canonEthReading 2) := by
  have hf1 : ((List.range' 1 c1).map canonEthReading).find?
      (fun r => ethDaysSoFar (canonEthPlan c1 c2 (k + 2)) 0 + r.day == ((c1 : Int) + c2 + 2))
      = none := by
    apply canon_find_none
    intro j hj1 hj2
    rw [canonEthPlan_daysSoFar0]
    omega
  have hf2 : ((List.range' 1 c2).map canonEthReading).find?
      (fun r => ethDaysSoFar (canonEthPlan c1 c2 (k + 2)) 1 + r.day == ((c1 : Int) + c2 + 2))
      = none := by
    apply canon_find_none
    intro j hj1 hj2
    rw [canonEthPlan_daysSoFar1]
    omega
  have hsplit : List.range' 1 (k + 2) = 1 :: 2 :: List.range' 3 k := by
    have hap := List.range'_append 1 2 k 1
    rw [← hap]
    rfl
  have hf3 : ((List.range' 1 (k + 2)).map canonEthReading).find?
      (fun r => ethDaysSoFar (canonEthPlan c1 c2 (k + 2)) 2 + r.day == ((c1 : Int) + c2 + 2))
      = some (canonEthReading 2) := by
    rw [hsplit]
    simp only [List.map_cons]
    rw [List.find?_cons_of_neg _ (by
      simp only [canonEthReading, beq_iff_eq, canonEthPlan_daysSoFar2]
      omega)]
    rw [List.find?_cons_of_pos _ (by
      simp only [canonEthReading, beq_iff_eq, canonEthPlan_daysSoFar2]
      omega)]
  show ethFindAux (canonEthPlan c1 c2 (k + 2))
      (canonEthMonth "Meskerem" c1 ::
        canonEthMonth "Tikimt" c2 :: canonEthMonth "Hidar" (k + 2) :: []) 0
      ((c1 : Int) + c2 + 2) = some ("Hidar", none, canonEthReading 2)
  rw [ethFindAux_cons_skip _ _ _ 0 _ _ (canonEthMonth_readings "Meskerem" c1) hf1]
  show ethFindAux (canonEthPlan c1 c2 (k + 2))
      (canonEthMonth "Tikimt" c2 :: canonEthMonth "Hidar" (k + 2) :: []) 1
      ((c1 : Int) + c2 + 2) = some ("Hidar", none, canonEthReading 2)
  rw [ethFindAux_cons_skip _ _ _ 1 _ _ (canonEthMonth_readings "Tikimt" c2) hf2]
  show ethFindAux (canonEthPlan c1 c2 (k + 2))
      (canonEthMonth "Hidar" (k + 2) :: []) 2
      ((c1 : Int) + c2 + 2) = some ("Hidar", none, canonEthReading 2)
  rw [ethFindAux_cons_found _ _ _ 2 _ _ _ (canonEthMonth_readings "Hidar" (k + 2)) hf3]
  simp [canonEthMonth, canonEthReading, Option.orElse]

/-- C6: for every Ethiopian lookup, a returned reading comes from some
month and satisfies the cumulative-offset equation (global day = sum of
reading counts of strictly earlier months + intra-month day); in particular,
on a canonical three-month plan with reading counts c1, c2, c3 (intra-month
day fields 1..c), the reading of the third month with intra-month day 2 is
returned exactly when the looked-up cycle day number equals c1 + c2 + 2. -/
theorem claim_C6 (c1 c2 c3 : Nat) (hc3 : 2 ≤ c3) :
    (∀ (plan : List EthMonth) (n : Int) (nm : String) (fe : Option String) (r : EthReading),
       ethFind plan n = some (nm, fe, r) →
       ∃ i m rs, plan[i]? = some m ∧ m.readings = some rs ∧ r ∈ rs ∧ nm = m.name ∧
         ethDaysSoFar plan i + r.day = n) ∧
    (ethFind (canonEthPlan c1 c2 c3) ((c1 : Int) + c2 + 2) =
       some ("Hidar", none, canonEthReading 2)) ∧
    (∀ n : Int, ethFind (canonEthPlan c1 c2 c3) n = some ("Hidar", none, canonEthReading 2) →
       n = (c1 : Int) + c2 + 2) := by
  refine ⟨?_, ?_, ?_⟩
  · intro plan n nm fe r h
    obtain ⟨j, m, rs, h1, h2, h3, h4, h5⟩ := ethFindAux_spec plan plan 0 n nm fe r h
    exact ⟨j, m, rs, h1, h2, h3, h4, by simpa using h5⟩
  · obtain ⟨k, rfl⟩ : ∃ k, c3 = k + 2 := ⟨c3 - 2, by omega⟩
    exact ethFind_canon c1 c2 k
  · intro n h
    obtain ⟨j, m, rs, h1, h2, h3, h4, h5⟩ :=
      ethFindAux_spec (canonEthPlan c1 c2 c3) (canonEthPlan c1 c2 c3) 0 n "Hidar" none
        (canonEthReading 2) h
    have hj3 : j < 3 := by
      have := (List.getElem?_eq_some_iff.mp h1).fst
      simpa [canonEthPlan] using this
    interval_cases j
    · rw [show (canonEthPlan c1 c2 c3)[0]? = some (canonEthMonth "Meskerem" c1) by rfl] at h1
      obtain rfl : m = canonEthMonth "Meskerem" c1 := by simpa using h1.symm
      simp [canonEthMonth] at h4
    · rw [show (canonEthPlan c1 c2 c3)[1]? = some (canonEthMonth "Tikimt" c2) by rfl] at h1
      obtain rfl : m = canonEthMonth "Tikimt" c2 := by simpa using h1.symm
      simp [canonEthMonth] at h4
    · rw [show (0 : Nat) + 2 = 2 by rfl] at h5
      rw [canonEthPlan_daysSoFar2] at h5
      simp only [canonEthReading] at h5
      omega

theorem claim_C6_witness :
    2 ≤ 2 ∧
    ((∀ (plan : List EthMonth) (n : Int) (nm : String) (fe : Option String) (r : EthReading),
        ethFind plan n = some (nm, fe, r) →
        ∃ i m rs, plan[i]? = some m ∧ m.readings = some rs ∧ r ∈ rs ∧ nm = m.name ∧
          ethDaysSoFar plan i + r.day = n) ∧
     (ethFind (canonEthPlan 2 3 2) ((2 : Int) + 3 + 2) =
        some ("Hidar", none, canonEthReading 2)) ∧
     (∀ n : Int, ethFind (canonEthPlan 2 3 2) n = some ("Hidar", none, canonEthReading 2) →
        n = (2 : Int) + 3 + 2)) :=
  ⟨by decide, claim_C6 2 3 2 (by decide)⟩

theorem getEthiopianReading_found_fst (s : RPState) (d : Int) (nm : String)
    (fe : Option String) (r : EthReading)
    (hfind : ethFind s.ethiopianPlan (calculateDayNumber s d 365).1 = some (nm, fe, r)) :
    (getEthiopianReading s d).1 =
      { day := (calculateDayNumber s d 365).1,
        title := (match fe with
          | some f => nm ++ " Day " ++ toString r.day ++ " - " ++ f
          | none => nm ++ " Day " ++ toString r.day),
        passages := [r.reading], theme := r.theme, month := some nm, focus := none,
        feast := fe, chapters := jsOr3 r.chapters } := by
  have hfr := (calculateDayNumber_snd_frame s d 365).2.2.1
  have hne : ¬ ((calculateDayNumber s d 365).2.ethiopianPlan.length = 0) := by
    rw [hfr]
    intro h0
    rw [List.length_eq_zero.mp h0] at hfind
    simp [ethFind, ethFindAux] at hfind
  unfold getEthiopianReading
  dsimp only
  rw [if_neg hne, hfr]
  simp only [hfind]
  cases fe with
  | none => simp [toString_id_str]
  | some f => simp [toString_id_str]

/-- C10 amended: for every Ethiopian lookup that finds a matching reading,
the day field of the returned assignment is the global cycle day number (the
cumulative offset plus the intra-month day) while the title embeds the
intra-month day field; the two numbers differ whenever the cumulative
count of readings of strictly earlier months is positive (in particular for
readings outside the first month when some earlier month is nonempty), but
coincide when every earlier month contributes zero readings. -/
theorem claim_C10 (s : RPState) (d : Int) (nm : String) (fe : Option String) (r : EthReading)
    (hfind : ethFind s.ethiopianPlan (calculateDayNumber s d 365).1 = some (nm, fe, r)) :
    (getEthiopianReading s d).1.day = (calculateDayNumber s d 365).1 ∧
    (getEthiopianReading s d).1.title =
      (match fe with
        | some f => nm ++ " Day " ++ toString r.day ++ " - " ++ f
        | none => nm ++ " Day " ++ toString r.day) ∧
    (∃ i m rs, s.ethiopianPlan[i]? = some m ∧ m.readings = some rs ∧ r ∈ rs ∧ nm = m.name ∧
      (calculateDayNumber s d 365).1 = ethDaysSoFar s.ethiopianPlan i + r.day ∧
      (0 < ethDaysSoFar s.ethiopianPlan i → r.day ≠ (getEthiopianReading s d).1.day)) := by
  have hfst := getEthiopianReading_found_fst s d nm fe r hfind
  refine ⟨by rw [hfst], by rw [hfst], ?_⟩
  obtain ⟨j, m, rs, h1, h2, h3, h4, h5⟩ :=
    ethFindAux_spec s.ethiopianPlan s.ethiopianPlan 0 (calculateDayNumber s d 365).1
      nm fe r hfind
  rw [Nat.zero_add] at h5
  refine ⟨j, m, rs, h1, h2, h3, h4, h5.symm, ?_⟩
  intro hpos habs
  rw [hfst] at habs
  dsimp only at habs
  omega

/-- C10 counterexample: on a plan whose first month has an empty readings
list, the reading found in the second month (outside the first month) has
intra-month day 1 and global day number 0 + 1 = 1, so the number embedded
in the title equals the day field of the assignment instead of differing. -/
theorem claim_C10_cex :
    (getEthiopianReading emptyFirstEthState 1704067200000).1.day = 1 ∧
    (getEthiopianReading emptyFirstEthState 1704067200000).1.title = "Tikimt Day 1" ∧
    ethFind emptyFirstEthPlan 1 =
      some ("Tikimt", none,
        { day := 1, reading := "Genesis 1", theme := "Creation",
          feast := none, chapters := none }) := by
  decide

theorem claim_C10_witness :
    (ethFind twoMonthEthState.ethiopianPlan
        (calculateDayNumber twoMonthEthState 1704153600000 365).1 =
      some ("Tikimt", none,
        { day := 1, reading := "Exodus 1", theme := "Deliverance",
          feast := none, chapters := none })) ∧
    ((getEthiopianReading twoMonthEthState 1704153600000).1.day =
        (calculateDayNumber twoMonthEthState 1704153600000 365).1 ∧
     (getEthiopianReading twoMonthEthState 1704153600000).1.title = "Tikimt Day 1" ∧
     (∃ i m rs, twoMonthEthState.ethiopianPlan[i]? = some m ∧ m.readings = some rs ∧
        ({ day := 1, reading := "Exodus 1", theme := "Deliverance",
           feast := none, chapters := none } : EthReading) ∈ rs ∧ "Tikimt" = m.name ∧
        (calculateDayNumber twoMonthEthState 1704153600000 365).1 =
          ethDaysSoFar twoMonthEthState.ethiopianPlan i + 1 ∧
        (0 < ethDaysSoFar twoMonthEthState.ethiopianPlan i →
          (1 : Int) ≠ (getEthiopianReading twoMonthEthState 1704153600000).1.day))) :=
  ⟨by decide,
    claim_C10 twoMonthEthState 1704153600000 "Tikimt" none
      { day := 1, reading := "Exodus 1", theme := "Deliverance",
        feast := none, chapters := none } (by decide)⟩

/-- C7: the flattened OT365 table is a permutation of the per-day records
(one per day entry, tagged with the labels of the parent month and with chapters
defaulted to 3 when absent), is sorted by the own day field of the entries, and
has exactly as many records as the months have day entries in total. -/
theorem claim_C7 (data : OTDoc) :
    List.Perm (flattenOT365Plan data) (otRawRecords data) ∧
    List.Sorted otDayLE (flattenOT365Plan data) ∧
    (flattenOT365Plan data).length = (otMonthDayCounts data).sum ∧
    (∀ months mp ds e, data.monthlyPlans = some months → mp ∈ months →
       mp.days = some ds → e ∈ ds →
       ({ day := e.day, reading := e.reading, theme := e.theme, month := mp.month,
          focus := mp.focus, chapters := jsOr3 e.chapters } : OTRecord) ∈
         flattenOT365Plan data) := by
  have hperm : List.Perm (flattenOT365Plan data) (otRawRecords data) :=
    List.perm_insertionSort otDayLE (otRawRecords data)
  refine ⟨hperm, List.sorted_insertionSort otDayLE (otRawRecords data), ?_, ?_⟩
  · rw [hperm.length_eq]
    unfold otRawRecords otMonthDayCounts
    cases data.monthlyPlans with
    | none => rfl
    | some months =>
        rw [List.length_flatMap]
        dsimp only
        refine congrArg List.sum ?_
        apply List.map_congr_left
        intro mp hmp
        cases h : mp.days <;> simp [h, Function.comp]
  · intro months mp ds e hm hmp hds he
    rw [hperm.mem_iff]
    unfold otRawRecords
    rw [hm]
    refine List.mem_flatMap.mpr ⟨mp, hmp, ?_⟩
    rw [hds]
    exact List.mem_map_of_mem _ he

theorem claim_C7_witness :
    List.Perm (flattenOT365Plan wOTDoc) (otRawRecords wOTDoc) ∧
    ({ day := 2, reading := "Genesis 9-11", theme := "Nations", month := "February",
       focus := "Patriarchs", chapters := jsOr3 (some 3) } : OTRecord) ∈
      flattenOT365Plan wOTDoc :=
  ⟨(claim_C7 wOTDoc).1,
   (claim_C7 wOTDoc).2.2.2 _
     { month := "February", focus := "Patriarchs",
       days := some [{ day := 2, reading := "Genesis 9-11", theme := "Nations",
                       chapters := some 3 }] }
     [{ day := 2, reading := "Genesis 9-11", theme := "Nations", chapters := some 3 }]
     { day := 2, reading := "Genesis 9-11", theme := "Nations", chapters := some 3 }
     rfl (by decide) rfl (by decide)⟩
